import Mathlib

/-!
Formalisation of the LLM helper library: an HTTP client for a local
inference server (`OllamaRemoteClient`) and two invoker functions
(`invoke_ai`, `invoke_ai2`).  HTTP transport is modelled as an explicit
`post` function from URL and JSON payload to a response; Python
exceptions are modelled with `Except PyError`; decoded JSON documents
are values of the `Json` inductive below.
-/

set_option autoImplicit false

/-- Decoded JSON values, as produced by the standard JSON reader
(Python dicts keep insertion order, so objects are ordered association
lists; numeric literals are restricted to integers in this model). -/
inductive Json where
  | null : Json
  | bool (b : Bool) : Json
  | num (n : Int) : Json
  | str (s : String) : Json
  | arr (elems : List Json) : Json
  | obj (fields : List (String × Json)) : Json
deriving Repr

/-- Python dict lookup on an association list whose keys are unique
(the building operation `dinsert` keeps them unique). -/
def dlookup (kvs : List (String × Json)) (k : String) : Option Json :=
  (kvs.find? (fun p => p.1 == k)).map (fun p => p.2)

/-- Python dict insertion: overwrite the value in place if the key is
present, otherwise append the new binding at the end. -/
def dinsert (kvs : List (String × Json)) (k : String) (v : Json) : List (String × Json) :=
  if kvs.any (fun p => p.1 == k) then
    kvs.map (fun p => if p.1 == k then (k, v) else p)
  else
    kvs ++ [(k, v)]

/-- Whitespace skipping of the JSON reader. -/
def skipWs : List Char → List Char
  | [] => []
  | c :: cs => if c = ' ' ∨ c = '\t' ∨ c = '\n' ∨ c = '\r' then skipWs cs else c :: cs

/-- Value of a hexadecimal digit. -/
def hexVal (c : Char) : Option Nat :=
  if '0' ≤ c ∧ c ≤ '9' then some (c.toNat - '0'.toNat)
  else if 'a' ≤ c ∧ c ≤ 'f' then some (c.toNat - 'a'.toNat + 10)
  else if 'A' ≤ c ∧ c ≤ 'F' then some (c.toNat - 'A'.toNat + 10)
  else none

/-- Single-character escape sequences of JSON strings. -/
def escChar (e : Char) : Option Char :=
  if e = '"' then some '"'
  else if e = '\\' then some '\\'
  else if e = '/' then some '/'
  else if e = 'b' then some (Char.ofNat 8)
  else if e = 'f' then some (Char.ofNat 12)
  else if e = 'n' then some '\n'
  else if e = 'r' then some '\r'
  else if e = 't' then some '\t'
  else none

/-- Body of a JSON string literal, after the opening quote: the decoded
characters and the input after the closing quote.  Unescaped control
characters are rejected, as in the strict standard reader. -/
def parseStringRest : Nat → List Char → Option (List Char × List Char)
  | 0, _ => none
  | _, [] => none
  | fuel + 1, c :: cs =>
    if c = '"' then some ([], cs)
    else if c = '\\' then
      match cs with
      | [] => none
      | e :: cs1 =>
        if e = 'u' then
          match cs1 with
          | h1 :: h2 :: h3 :: h4 :: cs2 => do
            let v1 ← hexVal h1
            let v2 ← hexVal h2
            let v3 ← hexVal h3
            let v4 ← hexVal h4
            let rest ← parseStringRest fuel cs2
            pure (Char.ofNat (((v1 * 16 + v2) * 16 + v3) * 16 + v4) :: rest.1, rest.2)
          | _ => none
        else do
          let ec ← escChar e
          let rest ← parseStringRest fuel cs1
          pure (ec :: rest.1, rest.2)
    else if c.toNat < 32 then none
    else do
      let rest ← parseStringRest fuel cs
      pure (c :: rest.1, rest.2)

/-- Longest digit run at the front of the input. -/
def takeDigits : List Char → (List Char × List Char)
  | [] => ([], [])
  | c :: cs =>
    if '0' ≤ c ∧ c ≤ '9' then
      let (ds, rest) := takeDigits cs
      (c :: ds, rest)
    else ([], c :: cs)

/-- Numeric value of a digit run. -/
def digitsToNat (ds : List Char) : Nat :=
  ds.foldl (fun acc c => acc * 10 + (c.toNat - '0'.toNat)) 0

/-- JSON numeric literal.  The JSON grammar forbids leading zeros; a
fraction or exponent would denote a float, which is outside this model,
so such literals are rejected rather than misread. -/
def parseNumber (cs : List Char) : Option (Json × List Char) :=
  let (neg, cs1) := match cs with
    | '-' :: rest => (true, rest)
    | _ => (false, cs)
  let (ds, rest) := takeDigits cs1
  if ds = [] then none
  else if ds.head? = some '0' ∧ ds.length > 1 then none
  else
    match rest with
    | c :: _ =>
      if c = '.' ∨ c = 'e' ∨ c = 'E' then none
      else some (Json.num (if neg then -(digitsToNat ds : Int) else (digitsToNat ds : Int)), rest)
    | [] => some (Json.num (if neg then -(digitsToNat ds : Int) else (digitsToNat ds : Int)), rest)

mutual

/-- A JSON value: object, array, string, literal or number. -/
def parseValue : Nat → List Char → Option (Json × List Char)
  | 0, _ => none
  | fuel + 1, cs =>
    match skipWs cs with
    | [] => none
    | c :: cs1 =>
      if c = '\x7b' then parseMembersStart fuel cs1
      else if c = '[' then parseElemsStart fuel cs1
      else if c = '"' then
        match parseStringRest fuel cs1 with
        | some (chars, rest) => some (Json.str (String.mk chars), rest)
        | none => none
      else if c = 't' then
        match cs1 with
        | 'r' :: 'u' :: 'e' :: rest => some (Json.bool true, rest)
        | _ => none
      else if c = 'f' then
        match cs1 with
        | 'a' :: 'l' :: 's' :: 'e' :: rest => some (Json.bool false, rest)
        | _ => none
      else if c = 'n' then
        match cs1 with
        | 'u' :: 'l' :: 'l' :: rest => some (Json.null, rest)
        | _ => none
      else parseNumber (c :: cs1)

/-- Object body after the opening brace: empty object or member list. -/
def parseMembersStart : Nat → List Char → Option (Json × List Char)
  | 0, _ => none
  | fuel + 1, cs =>
    match skipWs cs with
    | '\x7d' :: rest => some (Json.obj [], rest)
    | cs1 => parseMembers fuel cs1 []

/-- Non-empty member list of an object; duplicate keys keep the last
binding, as in the standard reader. -/
def parseMembers : Nat → List Char → List (String × Json) → Option (Json × List Char)
  | 0, _, _ => none
  | fuel + 1, cs, acc =>
    match skipWs cs with
    | '"' :: cs1 =>
      match parseStringRest fuel cs1 with
      | none => none
      | some (kcs, rest1) =>
        match skipWs rest1 with
        | ':' :: rest2 =>
          match parseValue fuel rest2 with
          | none => none
          | some (v, rest3) =>
            match skipWs rest3 with
            | ',' :: rest4 => parseMembers fuel rest4 (dinsert acc (String.mk kcs) v)
            | '\x7d' :: rest4 => some (Json.obj (dinsert acc (String.mk kcs) v), rest4)
            | _ => none
        | _ => none
    | _ => none

/-- Array body after the opening bracket: empty array or element list. -/
def parseElemsStart : Nat → List Char → Option (Json × List Char)
  | 0, _ => none
  | fuel + 1, cs =>
    match skipWs cs with
    | ']' :: rest => some (Json.arr [], rest)
    | cs1 => parseElems fuel cs1 []

/-- Non-empty element list of an array. -/
def parseElems : Nat → List Char → List Json → Option (Json × List Char)
  | 0, _, _ => none
  | fuel + 1, cs, acc =>
    match parseValue fuel cs with
    | none => none
    | some (v, rest) =>
      match skipWs rest with
      | ',' :: rest2 => parseElems fuel rest2 (acc ++ [v])
      | ']' :: rest2 => some (Json.arr (acc ++ [v]), rest2)
      | _ => none

end

/-- Python `json.loads`: parse one JSON document, requiring the whole
input to be consumed; `none` models a raised `json.JSONDecodeError`. -/
def json_loads (s : String) : Option Json :=
  match parseValue (2 * s.length + 2) s.data with
  | none => none
  | some (j, rest) => if skipWs rest = [] then some j else none

example : json_loads "\x7b\"message\":\x7b\"content\":\"A\"\x7d\x7d"
    = some (Json.obj [("message", Json.obj [("content", Json.str "A")])]) := by rfl

example : json_loads "not-json" = none := by rfl

example : json_loads " \x7b\"a\": [1, -2, true, null, \"x\"]\x7d "
    = some (Json.obj [("a", Json.arr
        [Json.num 1, Json.num (-2), Json.bool true, Json.null, Json.str "x"])]) := by rfl

/-- Python exceptions that the modelled code can raise. -/
inductive PyError where
  | httpError (status : Nat)
  | jsonDecodeError
  | keyError (key : String)
  | typeError
  | attributeError
  | indexError
deriving Repr, DecidableEq

/-- An HTTP response: status code and body text (for streaming reads the
body is consumed line by line). -/
structure HttpResponse where
  status : Nat
  body : String
deriving Repr, DecidableEq

/-- Statuses for which `requests` raises `HTTPError`: 4xx and 5xx. -/
def isErrorStatus (status : Nat) : Bool :=
  decide (400 ≤ status ∧ status < 600)

/-- `Response.raise_for_status` of the HTTP library. -/
def raise_for_status (r : HttpResponse) : Except PyError Unit :=
  if isErrorStatus r.status then Except.error (PyError.httpError r.status) else Except.ok ()

/-- Python `dict.get(key, default)` on a decoded JSON value: on an
object it returns the bound value or the default; on any other value
the attribute lookup `.get` raises `AttributeError`. -/
def pyGet (j : Json) (k : String) (default : Json) : Except PyError Json :=
  match j with
  | Json.obj kvs => Except.ok ((dlookup kvs k).getD default)
  | _ => Except.error PyError.attributeError

/-- Python subscript `value[key]` with a string key: on an object it
returns the bound value or raises `KeyError`; on any other value it
raises `TypeError`. -/
def pyIndex (j : Json) (k : String) : Except PyError Json :=
  match j with
  | Json.obj kvs =>
    match dlookup kvs k with
    | some v => Except.ok v
    | none => Except.error (PyError.keyError k)
  | _ => Except.error PyError.typeError

/-- Python truthiness of a decoded JSON value (`if text:`). -/
def pyTruthy : Json → Bool
  | Json.null => false
  | Json.bool b => b
  | Json.num n => n != 0
  | Json.str s => s != ""
  | Json.arr l => !l.isEmpty
  | Json.obj kvs => !kvs.isEmpty

/-- Outcome of consuming a streaming generator to the end: the values
yielded in order, and the exception aborting the iteration, if any. -/
structure StreamResult where
  fragments : List Json
  err : Option PyError
deriving Repr

/-- The per-line loop of `OllamaRemoteClient._chat_stream`: skip empty
lines, parse each line with `json.loads` (a parse failure is caught and
skipped), extract `data.get("message", \x7b\x7d).get("content", "")`
(an `AttributeError` there is not caught and aborts the iteration), and
yield the extracted text when it is truthy. -/
def iterLines : List String → StreamResult
  | [] => ⟨[], none⟩
  | raw_line :: rest =>
    if raw_line = "" then iterLines rest
    else
      match json_loads raw_line with
      | none => iterLines rest
      | some data =>
        match (do
            let m ← pyGet data "message" (Json.obj [])
            pyGet m "content" (Json.str "")) with
        | Except.error e => ⟨[], some e⟩
        | Except.ok text =>
          if pyTruthy text then
            ⟨text :: (iterLines rest).fragments, (iterLines rest).err⟩
          else iterLines rest

/-- The Remote Client: the state stored by `OllamaRemoteClient.__init__`. -/
structure OllamaRemoteClient where
  base_url : String
  model_name : String
deriving Repr, DecidableEq

/-- Python `str.rstrip("/")`: remove every trailing slash. -/
def rstripSlashes (s : String) : String :=
  String.mk ((s.data.reverse.dropWhile (fun c => c = '/')).reverse)

/-- `OllamaRemoteClient.__init__`: `base_url.rstrip("/") or
"http://localhost:11434"`, with the model name stored verbatim.  Passing
`None` as `base_url` raises `AttributeError` (`None` has no `rstrip`). -/
def OllamaRemoteClient.init (base_url : Option String) (model_name : String) :
    Except PyError OllamaRemoteClient :=
  match base_url with
  | none => Except.error PyError.attributeError
  | some u =>
    let b := rstripSlashes u
    Except.ok ⟨if b = "" then "http://localhost:11434" else b, model_name⟩

/-- The payload dict built by `chat`: the three core fields, then the
extra generation parameters merged in dict-display order (so a later
binding overwrites an earlier one with the same key). -/
def buildPayload (model_name : String) (messages : Json) (stream : Bool)
    (generation_params : List (String × Json)) : List (String × Json) :=
  generation_params.foldl (fun acc p => dinsert acc p.1 p.2)
    [("model", Json.str model_name), ("messages", messages), ("stream", Json.bool stream)]

/-- Split a body into its newline-separated lines (the accumulator
holds the current line reversed). -/
def splitLinesAux : List Char → List Char → List String
  | [], acc => [String.mk acc.reverse]
  | c :: cs, acc =>
    if c = '\n' then String.mk acc.reverse :: splitLinesAux cs []
    else splitLinesAux cs (c :: acc)

/-- The lines of a response body, in order. -/
def splitLines (s : String) : List String := splitLinesAux s.data []

/-- `OllamaRemoteClient._chat_stream`: post the payload, fail the
iteration on an error status, otherwise run the per-line loop over the
lines of the body. -/
def chat_stream (url : String) (payload : List (String × Json))
    (post : String → List (String × Json) → HttpResponse) : StreamResult :=
  let r := post url payload
  if isErrorStatus r.status then ⟨[], some (PyError.httpError r.status)⟩
  else iterLines (splitLines r.body)

/-- Result of `chat`: the full text reply, or the consumed stream. -/
inductive ChatResult where
  | text (content : Json)
  | streamed (s : StreamResult)
deriving Repr

/-- `OllamaRemoteClient.chat`: build the payload, and either return the
stream or post synchronously, raise for an error status, decode the body
and take `response.json()["message"]["content"]`. -/
def OllamaRemoteClient.chat (c : OllamaRemoteClient) (messages : Json) (stream : Bool)
    (generation_params : List (String × Json))
    (post : String → List (String × Json) → HttpResponse) : Except PyError ChatResult :=
  let url := c.base_url ++ "/api/chat"
  let payload := buildPayload c.model_name messages stream generation_params
  if stream then
    Except.ok (ChatResult.streamed (chat_stream url payload post))
  else do
    let response := post url payload
    raise_for_status response
    let data ← match json_loads response.body with
      | some j => Except.ok j
      | none => Except.error PyError.jsonDecodeError
    let msg ← pyIndex data "message"
    let content ← pyIndex msg "content"
    Except.ok (ChatResult.text content)

/-- Escaping used by Python `repr` on strings (backslash, quote and the
common control characters; other non-printables are approximated by
themselves). -/
def reprEscape (s : String) : String :=
  String.join (s.data.map (fun c =>
    if c = '\\' then "\\\\"
    else if c = '\'' then "\\'"
    else if c = '\n' then "\\n"
    else if c = '\r' then "\\r"
    else if c = '\t' then "\\t"
    else String.mk [c]))

mutual

/-- Python `repr` of a decoded JSON value (scalars exactly; containers
rendered with single-quoted strings as Python does). -/
def pyRepr : Json → String
  | Json.null => "None"
  | Json.bool true => "True"
  | Json.bool false => "False"
  | Json.num n => toString n
  | Json.str s => "'" ++ reprEscape s ++ "'"
  | Json.arr l => "[" ++ pyReprList l ++ "]"
  | Json.obj kvs => "\x7b" ++ pyReprFields kvs ++ "\x7d"

/-- Comma-separated reprs of list elements. -/
def pyReprList : List Json → String
  | [] => ""
  | [j] => pyRepr j
  | j :: rest => pyRepr j ++ ", " ++ pyReprList rest

/-- Comma-separated reprs of dict entries. -/
def pyReprFields : List (String × Json) → String
  | [] => ""
  | [(k, v)] => "'" ++ reprEscape k ++ "': " ++ pyRepr v
  | (k, v) :: rest => "'" ++ reprEscape k ++ "': " ++ pyRepr v ++ ", " ++ pyReprFields rest

end

/-- Python `str` of a decoded JSON value, as used by f-string
interpolation: a string interpolates as itself, anything else as its
repr. -/
def pyToStr : Json → String
  | Json.str s => s
  | j => pyRepr j

/-- `OllamaRemoteClient.stop`: post `\x7b"model": ..., "prompt": "",
"keep_alive": 0\x7d` to `<base>/api/generate`, raise for an error
status, and return the decoded JSON body. -/
def OllamaRemoteClient.stop (c : OllamaRemoteClient)
    (post : String → List (String × Json) → HttpResponse) : Except PyError Json := do
  let url := c.base_url ++ "/api/generate"
  let payload : List (String × Json) :=
    [("model", Json.str c.model_name), ("prompt", Json.str ""), ("keep_alive", Json.num 0)]
  let response := post url payload
  raise_for_status response
  match json_loads response.body with
  | some j => Except.ok j
  | none => Except.error PyError.jsonDecodeError

/-- `OllamaRemoteClient.stop_formatted`: call `stop`, then render
`f"Modello «\x7bmodel\x7d» scaricato (\x7bdone\x7d) - creato: \x7bts\x7d"`
where the three values come from `resp.get` with the configured model
name and `"N/D"` as defaults. -/
def OllamaRemoteClient.stop_formatted (c : OllamaRemoteClient)
    (post : String → List (String × Json) → HttpResponse) : Except PyError String := do
  let resp ← c.stop post
  let model ← pyGet resp "model" (Json.str c.model_name)
  let done ← pyGet resp "done_reason" (Json.str "N/D")
  let ts ← pyGet resp "created_at" (Json.str "N/D")
  Except.ok ("Modello «" ++ pyToStr model ++ "» scaricato (" ++ pyToStr done
    ++ ") - creato: " ++ pyToStr ts)

/-- A chat message of the hosted completion API. -/
structure ChatMessage where
  role : String
  content : String
deriving Repr, DecidableEq

/-- The request sent by the hosted invoker. -/
structure CompletionRequest where
  model : String
  messages : List ChatMessage
deriving Repr, DecidableEq

/-- One choice of a hosted completion response. -/
structure CompletionChoice where
  message : ChatMessage
deriving Repr, DecidableEq

/-- A hosted completion response: a list of choices. -/
structure CompletionResponse where
  choices : List CompletionChoice
deriving Repr, DecidableEq

/-- `invoke_ai`: build the two-message conversation, send it to the
hosted service (modelled by the `create` function) with the fixed model
identifier, and return `response.choices[0].message.content`
(`IndexError` if there are no choices). -/
def invoke_ai (create : CompletionRequest → CompletionResponse)
    (system_message user_message : String) : Except PyError String :=
  let response := create ⟨"o4-mini",
    [⟨"system", system_message⟩, ⟨"user", user_message⟩]⟩
  match response.choices with
  | [] => Except.error PyError.indexError
  | choice :: _ => Except.ok choice.message.content

/-- Resolution of `ollama_url` in `invoke_ai2`:
`os.getenv("OLLAMA_URL", "http://localhost:11434")` when the argument is
`None`, the argument itself otherwise. -/
def resolve_ollama_url (env : String → Option String) (ollama_url : Option String) : String :=
  match ollama_url with
  | none => (env "OLLAMA_URL").getD "http://localhost:11434"
  | some u => u

/-- Resolution of `ollama_model` in `invoke_ai2`:
`os.getenv("OLLAMA_MODEL", "phi3")` when the argument is `None`, the
argument itself otherwise. -/
def resolve_ollama_model (env : String → Option String) (ollama_model : Option String) : String :=
  match ollama_model with
  | none => (env "OLLAMA_MODEL").getD "phi3"
  | some m => m

/-- `invoke_ai2`: resolve the connection parameters, construct the
Remote Client, build the two-message conversation, and return the value
of a single `chat` call with `stream=False` and `temperature=0`. -/
def invoke_ai2 (env : String → Option String)
    (post : String → List (String × Json) → HttpResponse)
    (ollama_url ollama_model : Option String)
    (system_message user_message : String) : Except PyError ChatResult := do
  let url := resolve_ollama_url env ollama_url
  let model := resolve_ollama_model env ollama_model
  let llm ← OllamaRemoteClient.init (some url) model
  let messages := Json.arr
    [Json.obj [("role", Json.str "system"), ("content", Json.str system_message)],
     Json.obj [("role", Json.str "user"), ("content", Json.str user_message)]]
  llm.chat messages false [("temperature", Json.num 0)] post

/-- The binding held by a Python dict built from a key-value list in
order: the last occurrence of a key wins. -/
def dlookupLast (kvs : List (String × Json)) (k : String) : Option Json :=
  (kvs.reverse.find? (fun p => p.1 == k)).map (fun p => p.2)

/-- Whether a decoded JSON value is a non-empty string. -/
def isNonemptyStr : Json → Bool
  | Json.str s => s != ""
  | _ => false

section Lemmas

/-- Unfolding of `dlookup` on a cons cell. -/
theorem dlookup_cons (a : String) (b : Json) (kvs : List (String × Json)) (k : String) :
    dlookup ((a, b) :: kvs) k = if a = k then some b else dlookup kvs k := by
  by_cases h : a = k
  · simp [dlookup, h]
  · simp [dlookup, List.find?_cons_of_neg, h]

/-- Lookup after the overwrite-in-place branch of `dinsert`. -/
theorem dlookup_map_overwrite (kvs : List (String × Json)) (a : String) (b : Json) (k : String) :
    dlookup (kvs.map (fun p => if p.1 == a then (a, b) else p)) k
      = if a = k then (if kvs.any (fun p => p.1 == a) then some b else none)
        else dlookup kvs k := by
  induction kvs with
  | nil => simp [dlookup]
  | cons p rest ih =>
    obtain ⟨a1, b1⟩ := p
    by_cases h1 : a1 = a <;> by_cases h2 : a = k
    · subst h1; subst h2
      simp [dlookup_cons, List.map_cons]
    · subst h1
      simp only [List.map_cons, beq_self_eq_true, if_pos, List.any_cons, Bool.true_or]
      rw [dlookup_cons, dlookup_cons, ih]
      simp [h2]
    · subst h2
      simp only [List.map_cons, List.any_cons]
      rw [if_neg (by simp [h1]), dlookup_cons, if_neg h1, ih]
      by_cases hr : (rest.any fun p => p.1 == a) = true
      · simp [hr]
      · simp [hr, h1]
    · simp only [List.map_cons]
      rw [if_neg (by simp [h1]), dlookup_cons, dlookup_cons, ih]
      simp [h2]

/-- Lookup after a Python dict insertion: the inserted key now maps to
the inserted value and every other key is unchanged. -/
theorem dlookup_dinsert (kvs : List (String × Json)) (a : String) (b : Json) (k : String) :
    dlookup (dinsert kvs a b) k = if a = k then some b else dlookup kvs k := by
  unfold dinsert
  by_cases hany : kvs.any (fun p => p.1 == a) = true
  · rw [if_pos hany, dlookup_map_overwrite, hany]
    by_cases hk : a = k <;> simp [hk]
  · rw [if_neg hany]
    have hnone : ∀ k2, k2 = a → kvs.find? (fun p => p.1 == k2) = none := by
      intro k2 hk2
      subst hk2
      rw [List.find?_eq_none]
      intro x hx
      simp only [Bool.not_eq_true]
      rcases Bool.eq_false_or_eq_true (x.1 == k2) with h | h
      · exact absurd (List.any_eq_true.mpr ⟨x, hx, h⟩) hany
      · exact h
    by_cases hk : a = k
    · subst hk
      simp [dlookup, List.find?_append, hnone a rfl]
    · simp only [dlookup, List.find?_append]
      cases hfind : kvs.find? (fun p => p.1 == k) with
      | none => simp [List.find?_cons, hk, Ne.symm hk]
      | some p => simp [hfind, hk]

/-- Unfolding of `dlookupLast` on a cons cell. -/
theorem dlookupLast_cons (p : String × Json) (gp : List (String × Json)) (k : String) :
    dlookupLast (p :: gp) k
      = match dlookupLast gp k with
        | some v => some v
        | none => if p.1 = k then some p.2 else none := by
  simp only [dlookupLast, List.reverse_cons, List.find?_append]
  cases h : gp.reverse.find? (fun q => q.1 == k) with
  | none => by_cases hk : p.1 = k <;> simp [h, List.find?_cons, hk]
  | some q => simp [h]

/-- Lookup in a fold of Python dict insertions: the last binding of the
inserted list wins, and the base dict answers only for absent keys. -/
theorem dlookup_foldl_dinsert (gp : List (String × Json)) (k : String) :
    ∀ init : List (String × Json),
      dlookup (gp.foldl (fun acc p => dinsert acc p.1 p.2) init) k
        = match dlookupLast gp k with
          | some v => some v
          | none => dlookup init k := by
  induction gp with
  | nil => intro init; simp [dlookupLast]
  | cons p rest ih =>
    intro init
    simp only [List.foldl_cons]
    rw [ih (dinsert init p.1 p.2), dlookupLast_cons, dlookup_dinsert]
    cases hl : dlookupLast rest k with
    | some v => simp
    | none => by_cases hk : p.1 = k <;> simp [hk]

/-- Bind on a successful `Except` computation. -/
theorem except_bind_ok {α β : Type} (a : α) (f : α → Except PyError β) :
    (Except.ok a >>= f) = f a := rfl

/-- Bind on a failed `Except` computation: the error propagates. -/
theorem except_bind_error {α β : Type} (e : PyError) (f : α → Except PyError β) :
    ((Except.error e : Except PyError α) >>= f) = Except.error e := rfl

end Lemmas

/-- Stripping a trailing slash: `rstrip` removes it entirely. -/
theorem rstripSlashes_append_slash (s : String) :
    rstripSlashes (s ++ "/") = rstripSlashes s := by
  have h : (s ++ "/").data = s.data ++ ['/'] := by
    cases s with
    | mk d => rfl
  simp [rstripSlashes, h, List.dropWhile]

/-- C1: for a streaming chat call (`stream=True`) whose response body
consists of the lines `\x7b"message":\x7b"content":"A"\x7d\x7d`,
`not-json`, `\x7b"message":\x7b"content":"B"\x7d\x7d` and an empty
line, consuming the returned sequence yields exactly the fragments "A"
and "B" in that order: the empty line is skipped, the unparsable line
is skipped, and no further fragment is produced. -/
theorem C1_streaming_yields_exactly_A_B :
    OllamaRemoteClient.chat ⟨"http://localhost:11434", "phi3"⟩ (Json.arr []) true []
        (fun _ _ => ⟨200,
          "\x7b\"message\":\x7b\"content\":\"A\"\x7d\x7d\nnot-json\n\x7b\"message\":\x7b\"content\":\"B\"\x7d\x7d\n"⟩)
      = Except.ok (ChatResult.streamed ⟨[Json.str "A", Json.str "B"], none⟩) := by
  rfl

/-- C2: in the streaming path, a line of the response body that fails
to parse as a standalone JSON object is silently swallowed wherever it
occurs — the consumed stream (its fragments and its final outcome
alike) is the same as if the line were absent, so no error reaches the
caller and iteration continues with the next line. -/
theorem C2_parse_error_swallowed (pre post2 : List String) (bad : String)
    (h : json_loads bad = none) :
    iterLines (pre ++ bad :: post2) = iterLines (pre ++ post2) := by
  induction pre with
  | nil =>
    simp only [List.nil_append]
    simp [iterLines, h]
  | cons a pre2 ih =>
    simp only [List.cons_append, iterLines]
    repeat' split
    all_goals simp [ih]

/-- Witness for C2: the line "not-json" between two content lines. -/
theorem C2_witness :
    json_loads "not-json" = none ∧
      iterLines (["\x7b\"message\":\x7b\"content\":\"A\"\x7d\x7d"] ++ "not-json"
          :: ["\x7b\"message\":\x7b\"content\":\"B\"\x7d\x7d"])
        = iterLines (["\x7b\"message\":\x7b\"content\":\"A\"\x7d\x7d"]
          ++ ["\x7b\"message\":\x7b\"content\":\"B\"\x7d\x7d"]) :=
  ⟨rfl, C2_parse_error_swallowed _ _ _ rfl⟩

/-- C3 counterexample: constructing the Remote Client with `None` as
the base address does not store the default address — it raises
`AttributeError`, because `None` has no `rstrip` method. -/
theorem C3_counterexample :
    OllamaRemoteClient.init none "phi3" = Except.error PyError.attributeError ∧
      OllamaRemoteClient.init none "phi3"
        ≠ Except.ok ⟨"http://localhost:11434", "phi3"⟩ :=
  ⟨rfl, fun h => Except.noConfusion h⟩

/-- C3 (amended): for a string base address, a trailing path separator
is stripped (given "http://x:1/" the stored base address is
"http://x:1") and given "" the stored base address is
"http://localhost:11434"; the model identifier is stored verbatim.
Given `None`, however, the constructor raises `AttributeError` instead
of storing the default. -/
theorem C3_amended (s m : String) :
    OllamaRemoteClient.init (some (s ++ "/")) m = OllamaRemoteClient.init (some s) m ∧
    OllamaRemoteClient.init (some "http://x:1/") m = Except.ok ⟨"http://x:1", m⟩ ∧
    OllamaRemoteClient.init (some "") m = Except.ok ⟨"http://localhost:11434", m⟩ ∧
    OllamaRemoteClient.init none m = Except.error PyError.attributeError ∧
    (∀ c, OllamaRemoteClient.init (some s) m = Except.ok c → c.model_name = m) := by
  refine ⟨?_, rfl, rfl, rfl, ?_⟩
  · simp [OllamaRemoteClient.init, rstripSlashes_append_slash]
  · intro c hc
    simp only [OllamaRemoteClient.init, Except.ok.injEq] at hc
    subst hc
    rfl

/-- Witness for C3 (amended) at a concrete address. -/
theorem C3_amended_witness :
    OllamaRemoteClient.init (some "http://a") "m" = Except.ok ⟨"http://a", "m"⟩ ∧
      (OllamaRemoteClient.mk "http://a" "m").model_name = "m" :=
  ⟨rfl, (C3_amended "http://a" "m").2.2.2.2 ⟨"http://a", "m"⟩ rfl⟩

/-- C4: for a non-streaming chat call the response status decides the
outcome: an error status (4xx/5xx) makes the call fail with the
corresponding HttpError; otherwise the body is decoded as JSON and the
nested message.content field is returned.  In particular a status-200
body with message.content "hi" yields "hi", and a status-500 response
fails with the HttpError for 500 whatever its body. -/
theorem C4_chat_non_streaming (c : OllamaRemoteClient) (messages : Json)
    (gp : List (String × Json)) (r : HttpResponse) :
    (isErrorStatus r.status = true →
      c.chat messages false gp (fun _ _ => r)
        = Except.error (PyError.httpError r.status)) ∧
    (∀ j content, isErrorStatus r.status = false →
      json_loads r.body = some j →
      (do
        let m ← pyIndex j "message"
        pyIndex m "content") = Except.ok content →
      c.chat messages false gp (fun _ _ => r)
        = Except.ok (ChatResult.text content)) ∧
    (c.chat messages false gp
        (fun _ _ => ⟨200, "\x7b\"message\": \x7b\"content\": \"hi\"\x7d\x7d"⟩)
      = Except.ok (ChatResult.text (Json.str "hi"))) ∧
    (∀ body, c.chat messages false gp (fun _ _ => ⟨500, body⟩)
      = Except.error (PyError.httpError 500)) := by
  refine ⟨?_, ?_, rfl, fun body => rfl⟩
  · intro herr
    have h1 : raise_for_status r = Except.error (PyError.httpError r.status) := by
      simp [raise_for_status, herr]
    simp [OllamaRemoteClient.chat, h1, except_bind_error]
  · intro j content hok hjson hcontent
    have h1 : raise_for_status r = Except.ok () := by
      simp [raise_for_status, hok]
    cases hm : pyIndex j "message" with
    | error e =>
      rw [hm, except_bind_error] at hcontent
      exact absurd hcontent (by simp)
    | ok msg =>
      rw [hm, except_bind_ok] at hcontent
      simp [OllamaRemoteClient.chat, h1, hjson, hm, hcontent,
        except_bind_ok, except_bind_error]

/-- Witness for C4: the two mocked servers of the claim. -/
theorem C4_witness :
    OllamaRemoteClient.chat ⟨"http://localhost:11434", "phi3"⟩ (Json.arr []) false []
        (fun _ _ => ⟨200, "\x7b\"message\": \x7b\"content\": \"hi\"\x7d\x7d"⟩)
      = Except.ok (ChatResult.text (Json.str "hi")) ∧
    OllamaRemoteClient.chat ⟨"http://localhost:11434", "phi3"⟩ (Json.arr []) false []
        (fun _ _ => ⟨500, ""⟩)
      = Except.error (PyError.httpError 500) :=
  ⟨(C4_chat_non_streaming ⟨"http://localhost:11434", "phi3"⟩ (Json.arr []) []
      ⟨200, "\x7b\"message\": \x7b\"content\": \"hi\"\x7d\x7d"⟩).2.1
      (Json.obj [("message", Json.obj [("content", Json.str "hi")])]) (Json.str "hi")
      rfl rfl rfl,
   ((C4_chat_non_streaming ⟨"http://localhost:11434", "phi3"⟩ (Json.arr []) []
      ⟨500, ""⟩).1 rfl)⟩

/-- C5: for every pair of texts, the hosted invoker queries the
completion service with a conversation of exactly two messages — the
system message first, the user message second, each carrying the given
text — under the fixed model identifier, and returns the text content
of the first returned choice. -/
theorem C5_hosted_invoker (create : CompletionRequest → CompletionResponse)
    (system_message user_message : String) (choice : CompletionChoice)
    (rest : List CompletionChoice)
    (h : (create ⟨"o4-mini",
        [⟨"system", system_message⟩, ⟨"user", user_message⟩]⟩).choices
      = choice :: rest) :
    invoke_ai create system_message user_message = Except.ok choice.message.content := by
  simp [invoke_ai, h]

/-- Witness for C5 with a one-choice service. -/
theorem C5_witness :
    invoke_ai (fun _ => ⟨[⟨⟨"assistant", "ok"⟩⟩]⟩) "sys" "usr" = Except.ok "ok" :=
  C5_hosted_invoker (fun _ => ⟨[⟨⟨"assistant", "ok"⟩⟩]⟩) "sys" "usr"
    ⟨⟨"assistant", "ok"⟩⟩ [] rfl

/-- C6: the local invoker resolves an absent base address from the
OLLAMA_URL environment variable (default "http://localhost:11434") and
an absent model identifier from OLLAMA_MODEL (default "phi3"); an
explicitly given argument is used as-is. -/
theorem C6_parameter_resolution (env : String → Option String) :
    (∀ u, resolve_ollama_url env (some u) = u) ∧
    (∀ v, env "OLLAMA_URL" = some v → resolve_ollama_url env none = v) ∧
    (env "OLLAMA_URL" = none → resolve_ollama_url env none = "http://localhost:11434") ∧
    (∀ m, resolve_ollama_model env (some m) = m) ∧
    (∀ v, env "OLLAMA_MODEL" = some v → resolve_ollama_model env none = v) ∧
    (env "OLLAMA_MODEL" = none → resolve_ollama_model env none = "phi3") := by
  refine ⟨fun u => rfl, fun v hv => ?_, fun h0 => ?_, fun m => rfl,
    fun v hv => ?_, fun h0 => ?_⟩
  · simp [resolve_ollama_url, hv]
  · simp [resolve_ollama_url, h0]
  · simp [resolve_ollama_model, hv]
  · simp [resolve_ollama_model, h0]

/-- Witness for C6: set and unset environments, and explicit values. -/
theorem C6_witness :
    resolve_ollama_url (fun k => if k = "OLLAMA_URL" then some "http://h:1" else none) none
        = "http://h:1" ∧
      resolve_ollama_url (fun _ => none) none = "http://localhost:11434" ∧
      resolve_ollama_url (fun _ => none) (some "http://e:2") = "http://e:2" ∧
      resolve_ollama_model (fun k => if k = "OLLAMA_MODEL" then some "m1" else none) none
        = "m1" ∧
      resolve_ollama_model (fun _ => none) none = "phi3" ∧
      resolve_ollama_model (fun _ => none) (some "m2") = "m2" :=
  ⟨(C6_parameter_resolution _).2.1 "http://h:1" rfl,
   (C6_parameter_resolution (fun _ => none)).2.2.1 rfl,
   (C6_parameter_resolution (fun _ => none)).1 "http://e:2",
   (C6_parameter_resolution _).2.2.2.2.1 "m1" rfl,
   (C6_parameter_resolution (fun _ => none)).2.2.2.2.2 rfl,
   (C6_parameter_resolution (fun _ => none)).2.2.2.1 "m2"⟩

/-- C7: the local invoker delegates to exactly one `chat` call on the
constructed Remote Client, with the two-message conversation, streaming
disabled and temperature 0, and returns that call's value unchanged —
so in particular any error the Remote Client produces is propagated
unmodified. -/
theorem C7_invoke_ai2_delegates (env : String → Option String)
    (post : String → List (String × Json) → HttpResponse)
    (ollama_url ollama_model : Option String) (system_message user_message : String) :
    ∃ llm : OllamaRemoteClient,
      OllamaRemoteClient.init (some (resolve_ollama_url env ollama_url))
          (resolve_ollama_model env ollama_model) = Except.ok llm ∧
      invoke_ai2 env post ollama_url ollama_model system_message user_message
        = llm.chat (Json.arr
            [Json.obj [("role", Json.str "system"), ("content", Json.str system_message)],
             Json.obj [("role", Json.str "user"), ("content", Json.str user_message)]])
            false [("temperature", Json.num 0)] post :=
  ⟨_, rfl, rfl⟩

/-- C8: when `stop()` succeeds with a JSON object whose "model",
"done_reason" and "created_at" fields are strings or absent,
`stop_formatted` returns the single human-readable line built from the
model name (the configured model identifier when absent), the done
reason (placeholder "N/D" when absent) and the creation timestamp
(placeholder "N/D" when absent) — each of which occurs in the returned
string. -/
theorem C8_stop_formatted (c : OllamaRemoteClient)
    (post : String → List (String × Json) → HttpResponse)
    (kvs : List (String × Json)) (m d t : String)
    (hstop : c.stop post = Except.ok (Json.obj kvs))
    (hm : dlookup kvs "model" = some (Json.str m)
        ∨ (dlookup kvs "model" = none ∧ m = c.model_name))
    (hd : dlookup kvs "done_reason" = some (Json.str d)
        ∨ (dlookup kvs "done_reason" = none ∧ d = "N/D"))
    (ht : dlookup kvs "created_at" = some (Json.str t)
        ∨ (dlookup kvs "created_at" = none ∧ t = "N/D")) :
    c.stop_formatted post
        = Except.ok ("Modello «" ++ m ++ "» scaricato (" ++ d ++ ") - creato: " ++ t) ∧
      (∃ p q, "Modello «" ++ m ++ "» scaricato (" ++ d ++ ") - creato: " ++ t
          = p ++ m ++ q) ∧
      (∃ p q, "Modello «" ++ m ++ "» scaricato (" ++ d ++ ") - creato: " ++ t
          = p ++ d ++ q) ∧
      (∃ p q, "Modello «" ++ m ++ "» scaricato (" ++ d ++ ") - creato: " ++ t
          = p ++ t ++ q) := by
  refine ⟨?_,
    ⟨"Modello «", "» scaricato (" ++ d ++ ") - creato: " ++ t,
      by simp [String.append_assoc]⟩,
    ⟨"Modello «" ++ m ++ "» scaricato (", ") - creato: " ++ t,
      by simp [String.append_assoc]⟩,
    ⟨"Modello «" ++ m ++ "» scaricato (" ++ d ++ ") - creato: ", "",
      by simp [String.append_assoc]⟩⟩
  simp only [OllamaRemoteClient.stop_formatted, hstop, except_bind_ok]
  rcases hm with hm | ⟨hm, hm2⟩ <;> rcases hd with hd | ⟨hd, hd2⟩ <;>
    rcases ht with ht | ⟨ht, ht2⟩ <;>
    simp [pyGet, pyToStr, except_bind_ok, *]

/-- Witness for C8: the response of the claim, with all three fields
present. -/
theorem C8_witness :
    OllamaRemoteClient.stop_formatted ⟨"http://localhost:11434", "phi3"⟩
        (fun _ _ => ⟨200,
          "\x7b\"model\":\"phi3\",\"done_reason\":\"unload\",\"created_at\":\"T\"\x7d"⟩)
      = Except.ok "Modello «phi3» scaricato (unload) - creato: T" :=
  (C8_stop_formatted ⟨"http://localhost:11434", "phi3"⟩
      (fun _ _ => ⟨200,
        "\x7b\"model\":\"phi3\",\"done_reason\":\"unload\",\"created_at\":\"T\"\x7d"⟩)
      [("model", Json.str "phi3"), ("done_reason", Json.str "unload"),
        ("created_at", Json.str "T")]
      "phi3" "unload" "T" rfl (Or.inl rfl) (Or.inl rfl) (Or.inl rfl)).1

/-- C9 counterexample: the stream can emit a fragment that is not a
(non-empty) string — a line whose message.content is the number 5 is
yielded as that number. -/
theorem C9_counterexample :
    (iterLines ["\x7b\"message\":\x7b\"content\":5\x7d\x7d"]).fragments = [Json.num 5] ∧
      isNonemptyStr (Json.num 5) = false :=
  ⟨rfl, rfl⟩

/-- C9 (amended): every fragment yielded by the streaming loop is a
truthy JSON value — in particular the stream never emits the empty
string — but it need not be a string at all when the server sends
non-string content. -/
theorem C9_amended (lines : List String) (f : Json)
    (h : f ∈ (iterLines lines).fragments) :
    pyTruthy f = true ∧ f ≠ Json.str "" := by
  have key : ∀ lines2 : List String, f ∈ (iterLines lines2).fragments → pyTruthy f = true := by
    intro lines2
    induction lines2 with
    | nil => intro h2; simp [iterLines] at h2
    | cons raw rest ih =>
      intro h2
      simp only [iterLines] at h2
      split at h2
      · exact ih h2
      · split at h2
        · exact ih h2
        · split at h2
          · simp at h2
          · split at h2
            · rcases List.mem_cons.mp h2 with h3 | h3
              · subst h3; assumption
              · exact ih h3
            · exact ih h2
  refine ⟨key lines h, ?_⟩
  intro hf
  have := key lines h
  rw [hf] at this
  simp [pyTruthy] at this

/-- Witness for C9 (amended) on a one-line body. -/
theorem C9_amended_witness :
    pyTruthy (Json.str "A") = true ∧ Json.str "A" ≠ Json.str "" :=
  C9_amended ["\x7b\"message\":\x7b\"content\":\"A\"\x7d\x7d"] (Json.str "A")
    (by
      rw [show (iterLines ["\x7b\"message\":\x7b\"content\":\"A\"\x7d\x7d"]).fragments
          = [Json.str "A"] from rfl]
      exact List.mem_singleton.mpr rfl)

/-- C10: a generation parameter named "model", "messages" or "stream"
silently overrides the corresponding core field of the request payload
(the merge happens after the core fields are set, with no validation
rejecting the name): the payload's binding for that key is the one from
the generation parameters. -/
theorem C10_generation_params_override (model_name : String) (messages : Json)
    (stream : Bool) (gp : List (String × Json)) (k : String) (v : Json)
    (_hk : k = "model" ∨ k = "messages" ∨ k = "stream")
    (hv : dlookupLast gp k = some v) :
    dlookup (buildPayload model_name messages stream gp) k = some v := by
  unfold buildPayload
  rw [dlookup_foldl_dinsert gp k, hv]

/-- Witness for C10: a generation parameter named "model" replaces the
configured model in the payload. -/
theorem C10_witness :
    dlookup (buildPayload "phi3" (Json.arr []) false [("model", Json.str "other")]) "model"
      = some (Json.str "other") :=
  C10_generation_params_override "phi3" (Json.arr []) false
    [("model", Json.str "other")] "model" (Json.str "other") (Or.inl rfl) rfl

